import Mathlib

/-!
Shallow embedding of the Smart Expense Tracker web application (src/app.py).

The three relations of the SQLite schema (`users`, `expenses`, `user_budget`)
are embedded as Lean structures, a table as a `List` of rows kept in storage
(insertion) order.  SQLite `REAL` amounts are embedded as exact rationals `ℚ`;
`TEXT` dates keep their `YYYY-MM-DD` string form so that SQLite's BINARY text
comparison becomes `String` order and `strftime` with a `%Y-%m` format becomes
taking the first seven characters.  Each route handler / helper of app.py that
the properties mention is embedded as a pure function from the relevant table
state (and the request parameters) to the new state and result.
-/

namespace ExpenseTracker

/-- A row of the `expenses` table (app.py, init_db, lines 49-59). -/
structure Expense where
  id : Nat
  user_id : Nat
  amount : ℚ
  category : String
  date : String
  note : String
deriving DecidableEq, Repr

/-- A row of the `users` table (app.py, init_db, lines 40-47). -/
structure UserRow where
  id : Nat
  username : String
  email : String
  password_hash : String
deriving DecidableEq, Repr

/-- A row of the `user_budget` table (app.py, init_db, lines 61-69). -/
structure BudgetRow where
  id : Nat
  user_id : Nat
  monthly_income : ℚ
  savings_goal : ℚ
deriving DecidableEq, Repr

/-- Lexicographic comparison of two character lists, code point by code
point: SQLite's byte-wise BINARY collation restricted to the ASCII texts
(dates) the application stores. -/
def chListLe : List Char → List Char → Bool
  | [], _ => true
  | _ :: _, [] => false
  | a :: s, b :: t => if a < b then true else if b < a then false else chListLe s t

/-- SQLite TEXT comparison (`date >= ?`, `date <= ?`) under the default
BINARY collation: true when `s` sorts no later than `t`. -/
def textLe (s t : String) : Bool := chListLe s.data t.data

/-- All expenses of a user, in storage order:
`SELECT * FROM expenses WHERE user_id = ?`. -/
def userExpenses (db : List Expense) (uid : Nat) : List Expense :=
  db.filter (fun e => e.user_id == uid)

/-- Sum of the amounts of a list of expense rows (SQL `SUM(amount)`). -/
def amountSum (l : List Expense) : ℚ :=
  (l.map (fun e => e.amount)).sum

/-- The distinct values of a key over a list of rows, in first-occurrence
order: the groups produced by SQL `GROUP BY key`. -/
def groupKeys (key : Expense → String) (l : List Expense) : List String :=
  (l.map key).dedup

/-- `SUM(amount)` over the rows of one group of `GROUP BY key`. -/
def groupTotal (key : Expense → String) (l : List Expense) (k : String) : ℚ :=
  amountSum (l.filter (fun e => key e == k))

/-- `calculate_category_spending` (app.py lines 122-132):
`SELECT category, SUM(amount) FROM expenses WHERE user_id = ? GROUP BY category`. -/
def calculate_category_spending (db : List Expense) (uid : Nat) :
    List (String × ℚ) :=
  let l := userExpenses db uid
  (groupKeys (fun e => e.category) l).map
    (fun c => (c, groupTotal (fun e => e.category) l c))

/-! ### Partition lemmas for `GROUP BY` aggregation -/

theorem amountSum_filter_add_not (l : List Expense) (p : Expense → Bool) :
    amountSum (l.filter p) + amountSum (l.filter (fun e => !(p e)))
      = amountSum l := by
  induction l with
  | nil => simp [amountSum]
  | cons a t ih =>
    by_cases h : p a = true <;>
      simp [List.filter_cons, h, amountSum] at * <;> linarith [ih]

theorem groupTotal_filter_ne (key : Expense → String) (l : List Expense)
    (k j : String) (hkj : j ≠ k) :
    groupTotal key (l.filter (fun e => !(key e == k))) j = groupTotal key l j := by
  unfold groupTotal
  congr 1
  induction l with
  | nil => rfl
  | cons a t ih =>
    by_cases h : key a = j
    · simp [List.filter_cons, h, hkj, ih]
    · by_cases h2 : key a = k <;>
        simp [List.filter_cons, h, h2, ih, Ne.symm hkj]

/-- Summing the per-group totals over any duplicate-free list of keys that
covers every row gives the total over all rows: `GROUP BY` partitions. -/
theorem sum_groupTotals (key : Expense → String) :
    ∀ (keys : List String) (l : List Expense), keys.Nodup →
      (∀ e ∈ l, key e ∈ keys) →
      (keys.map (groupTotal key l)).sum = amountSum l := by
  intro keys
  induction keys with
  | nil =>
    intro l _ hmem
    cases l with
    | nil => simp [amountSum]
    | cons a t => exact absurd (hmem a (List.mem_cons_self a t)) (by simp)
  | cons k ks ih =>
    intro l hnd hmem
    have hknotin : k ∉ ks := (List.nodup_cons.mp hnd).1
    have hndks : ks.Nodup := (List.nodup_cons.mp hnd).2
    have hrest : ∀ e ∈ l.filter (fun e => !(key e == k)), key e ∈ ks := by
      intro e he
      rcases List.mem_filter.mp he with ⟨hel, hne⟩
      have : key e ≠ k := by
        intro hc
        simp [hc] at hne
      rcases List.mem_cons.mp (hmem e hel) with h | h
      · exact absurd h this
      · exact h
    have hmap : ks.map (groupTotal key l)
        = ks.map (groupTotal key (l.filter (fun e => !(key e == k)))) := by
      apply List.map_congr_left
      intro j hj
      have hjk : j ≠ k := fun hc => hknotin (hc ▸ hj)
      exact (groupTotal_filter_ne key l k j hjk).symm
    calc ((k :: ks).map (groupTotal key l)).sum
        = groupTotal key l k + (ks.map (groupTotal key l)).sum := by
          simp
      _ = groupTotal key l k
            + (ks.map (groupTotal key (l.filter (fun e => !(key e == k))))).sum := by
          rw [hmap]
      _ = groupTotal key l k + amountSum (l.filter (fun e => !(key e == k))) := by
          rw [ih _ hndks hrest]
      _ = amountSum l := by
          have := amountSum_filter_add_not l (fun e => key e == k)
          unfold groupTotal
          linarith [this]

theorem groupKeys_nodup (key : Expense → String) (l : List Expense) :
    (groupKeys key l).Nodup :=
  List.nodup_dedup _

theorem mem_groupKeys (key : Expense → String) (l : List Expense)
    (e : Expense) (he : e ∈ l) : key e ∈ groupKeys key l := by
  unfold groupKeys
  exact List.mem_dedup.mpr (List.mem_map_of_mem key he)

/-- C2: summing category totals over all categories equals the sum of every
expense of the user: grouping by category partitions the user's expenses. -/
theorem category_totals_sum_to_user_total (db : List Expense) (uid : Nat) :
    ((calculate_category_spending db uid).map Prod.snd).sum
      = amountSum (userExpenses db uid) := by
  unfold calculate_category_spending
  rw [List.map_map]
  have h : (Prod.snd ∘ fun c =>
      (c, groupTotal (fun e => e.category) (userExpenses db uid) c))
      = groupTotal (fun e => e.category) (userExpenses db uid) := rfl
  rw [h]
  exact sum_groupTotals (fun e => e.category) _ _
    (groupKeys_nodup _ _) (fun e he => mem_groupKeys _ _ e he)

/-! ### Forecast (app.py lines 157-177) -/

/-- `strftime('%Y-%m', date)` on a `YYYY-MM-DD` date string: its first seven
characters, the calendar-month label. -/
def monthOf (d : String) : String := d.take 7

/-- The rows of `WHERE user_id = ? AND date >= ?` where the cutoff is the
date 90 days before now (the trailing-3-month window of
`forecast_next_month`); SQLite compares the TEXT dates byte-wise, which on
ISO dates is `String` order. -/
def windowExpenses (db : List Expense) (uid : Nat) (cutoff : String) :
    List Expense :=
  db.filter (fun e => e.user_id == uid && textLe cutoff e.date)

/-- The `(month, SUM(amount))` groups of the forecast query
(`GROUP BY month` over the trailing window), one entry per distinct month. -/
def forecastGroups (db : List Expense) (uid : Nat) (cutoff : String) :
    List (String × ℚ) :=
  let l := windowExpenses db uid cutoff
  (groupKeys (fun e => monthOf e.date) l).map
    (fun m => (m, groupTotal (fun e => monthOf e.date) l m))

/-- Python's `round(x, 2)`: rounding to two decimal places. -/
def round2 (q : ℚ) : ℚ := (round (q * 100) : ℤ) / 100

/-- `forecast_next_month` (app.py lines 157-177): 0 when the window query
returns no group, otherwise the sum of the per-month totals divided by
`max(len(result), 1)`, rounded to 2 decimal places. -/
def forecast_next_month (db : List Expense) (uid : Nat) (cutoff : String) : ℚ :=
  if (forecastGroups db uid cutoff).length = 0 then 0
  else round2 ((((forecastGroups db uid cutoff).map Prod.snd).sum)
    / (max (forecastGroups db uid cutoff).length 1 : ℕ))

theorem forecastGroups_length (db : List Expense) (uid : Nat) (cutoff : String) :
    (forecastGroups db uid cutoff).length
      = (groupKeys (fun e => monthOf e.date) (windowExpenses db uid cutoff)).length := by
  unfold forecastGroups
  simp

theorem forecastGroups_sum (db : List Expense) (uid : Nat) (cutoff : String) :
    ((forecastGroups db uid cutoff).map Prod.snd).sum
      = amountSum (windowExpenses db uid cutoff) := by
  unfold forecastGroups
  rw [List.map_map]
  exact sum_groupTotals (fun e => monthOf e.date) _ _
    (groupKeys_nodup _ _) (fun e he => mem_groupKeys _ _ e he)

theorem groupKeys_eq_nil_iff (key : Expense → String) (l : List Expense) :
    groupKeys key l = [] ↔ l = [] := by
  unfold groupKeys
  rw [List.dedup_eq_nil, List.map_eq_nil_iff]

/-- C1: the forecast is 0 when the trailing-3-month window holds no expense
of the user, and otherwise is the window's total spend divided by the number
of distinct calendar months (`YYYY-MM`) with at least one expense in the
window, rounded to 2 decimal places. -/
theorem forecast_next_month_spec (db : List Expense) (uid : Nat)
    (cutoff : String) :
    (windowExpenses db uid cutoff = [] → forecast_next_month db uid cutoff = 0)
    ∧ (windowExpenses db uid cutoff ≠ [] →
        forecast_next_month db uid cutoff
          = round2 (amountSum (windowExpenses db uid cutoff)
              / ((groupKeys (fun e => monthOf e.date)
                    (windowExpenses db uid cutoff)).length : ℕ))) := by
  constructor
  · intro h
    unfold forecast_next_month
    rw [forecastGroups_length]
    simp [(groupKeys_eq_nil_iff (fun e => monthOf e.date) _).mpr h]
  · intro h
    have hne : groupKeys (fun e => monthOf e.date)
        (windowExpenses db uid cutoff) ≠ [] := by
      intro hc
      exact h ((groupKeys_eq_nil_iff (fun e => monthOf e.date) _).mp hc)
    have hlen : 0 < (groupKeys (fun e => monthOf e.date)
        (windowExpenses db uid cutoff)).length :=
      List.length_pos.mpr hne
    unfold forecast_next_month
    rw [forecastGroups_length, forecastGroups_sum]
    have h0 : ¬ (groupKeys (fun e => monthOf e.date)
        (windowExpenses db uid cutoff)).length = 0 := by omega
    rw [if_neg h0]
    have hm : max (groupKeys (fun e => monthOf e.date)
        (windowExpenses db uid cutoff)).length 1
        = (groupKeys (fun e => monthOf e.date)
            (windowExpenses db uid cutoff)).length := by omega
    rw [hm]

/-- A concrete table used to exercise the theorems: user 1 owns three
expenses (two in 2024-01, one in 2024-02), user 2 owns one expense. -/
def exDb : List Expense :=
  [⟨1, 1, 10, "Food", "2024-01-05", ""⟩,
   ⟨2, 1, 20, "Food", "2024-01-10", ""⟩,
   ⟨3, 1, 5, "Travel", "2024-02-01", ""⟩,
   ⟨4, 2, 7, "Bills", "2024-01-20", ""⟩]

/-- Witness for C1: with cutoff 2024-01-01, user 1's window holds 35 over
two distinct months, so the forecast is 17.5; and user 3 has an empty
window, so the forecast is 0. -/
theorem forecast_next_month_spec_witness :
    windowExpenses exDb 1 "2024-01-01" ≠ []
    ∧ forecast_next_month exDb 1 "2024-01-01" = 35 / 2
    ∧ windowExpenses exDb 3 "2024-01-01" = []
    ∧ forecast_next_month exDb 3 "2024-01-01" = 0 := by
  refine ⟨by decide, ?_, by decide,
    (forecast_next_month_spec exDb 3 "2024-01-01").1 (by decide)⟩
  rw [(forecast_next_month_spec exDb 1 "2024-01-01").2 (by decide)]
  have hw : windowExpenses exDb 1 "2024-01-01"
      = [⟨1, 1, 10, "Food", "2024-01-05", ""⟩,
         ⟨2, 1, 20, "Food", "2024-01-10", ""⟩,
         ⟨3, 1, 5, "Travel", "2024-02-01", ""⟩] := by decide
  rw [hw]
  have h2 : (groupKeys (fun e => monthOf e.date)
      ([⟨1, 1, 10, "Food", "2024-01-05", ""⟩,
        ⟨2, 1, 20, "Food", "2024-01-10", ""⟩,
        ⟨3, 1, 5, "Travel", "2024-02-01", ""⟩] : List Expense)).length = 2 := by
    decide
  rw [h2]
  norm_num [amountSum, round2, round_eq]

/-! ### Expense listing query construction (app.py lines 92-120) -/

/-- The sort-column allow-list of `get_expenses`
(`if sort_by in ['date', 'amount', 'category']`). -/
def allowedSortColumns : List String := ["date", "amount", "category"]

/-- `safe_order = 'ASC' if sort_order == 'ASC' else 'DESC'` (line 115). -/
def safeOrder (sort_order : String) : String :=
  if sort_order = "ASC" then "ASC" else "DESC"

/-- The ORDER BY suffix appended to the query text (lines 114-116): present
only for an allow-listed sort column, with the sanitized direction. -/
def orderClause (sort_by sort_order : String) : String :=
  if sort_by ∈ allowedSortColumns then
    " ORDER BY " ++ sort_by ++ " " ++ safeOrder sort_order
  else ""

/-- The filter part of the query text of `get_expenses` (lines 95-112);
an absent optional parameter is the empty string (Python falsy). -/
def filterClauses (category start_date end_date search : String) : String :=
  let q0 := "SELECT * FROM expenses WHERE user_id = ?"
  let q1 := if category ≠ "" ∧ category ≠ "All" then q0 ++ " AND category = ?"
            else q0
  let q2 := if start_date ≠ "" then q1 ++ " AND date >= ?" else q1
  let q3 := if end_date ≠ "" then q2 ++ " AND date <= ?" else q2
  if search ≠ "" then q3 ++ " AND (note LIKE ? OR category LIKE ?)" else q3

/-- The full query text built by `get_expenses` (app.py lines 92-118). -/
def get_expenses_query
    (category start_date end_date search sort_by sort_order : String) : String :=
  filterClauses category start_date end_date search
    ++ orderClause sort_by sort_order

/-- C3: the query text of `get_expenses` is the filter part plus an ORDER BY
suffix that appears only for a sort column on the allow-list, always with
that column and a direction that is ASC exactly when `sort_order` is the
string ASC and DESC otherwise; no other `sort_by` or `sort_order` value
reaches the query text. -/
theorem get_expenses_query_order_safe
    (category start_date end_date search sort_by sort_order : String) :
    get_expenses_query category start_date end_date search sort_by sort_order
      = filterClauses category start_date end_date search
        ++ orderClause sort_by sort_order
    ∧ (sort_by ∉ allowedSortColumns → orderClause sort_by sort_order = "")
    ∧ (sort_by ∈ allowedSortColumns →
        orderClause sort_by sort_order
          = " ORDER BY " ++ sort_by ++ " " ++ safeOrder sort_order)
    ∧ (safeOrder sort_order = "ASC" ∨ safeOrder sort_order = "DESC")
    ∧ (safeOrder sort_order = "ASC" ↔ sort_order = "ASC")
    ∧ (sort_order ≠ "ASC" → safeOrder sort_order = "DESC") := by
  refine ⟨rfl, fun h => ?_, fun h => ?_, ?_, ?_, fun h => ?_⟩
  · simp [orderClause, h]
  · simp [orderClause, h]
  · by_cases h : sort_order = "ASC" <;> simp [safeOrder, h]
  · constructor
    · intro h
      by_cases hc : sort_order = "ASC"
      · exact hc
      · simp [safeOrder, hc] at h
    · intro h
      simp [safeOrder, h]
  · simp [safeOrder, h]

/-- Witness for C3: an injection attempt through `sort_by` ends with a query
that has no ORDER BY clause at all. -/
theorem get_expenses_query_order_safe_witness :
    get_expenses_query "All" "" "" "" "amount; DROP TABLE users" "ASC"
      = "SELECT * FROM expenses WHERE user_id = ?" := by
  have h := get_expenses_query_order_safe "All" "" "" ""
    "amount; DROP TABLE users" "ASC"
  rw [h.1, h.2.1 (by decide)]
  rfl

/-! ### Signup (app.py lines 216-246) -/

/-- `werkzeug.security.generate_password_hash`, an external library call,
modelled abstractly as a tagging function; no property here depends on it. -/
def generate_password_hash (password : String) : String :=
  "pbkdf2$" ++ password

/-- Outcome of a signup POST: a rejection is `flash(danger)` followed by a
redirect back to the signup page; `created` is the insert followed by a
redirect to the login page. -/
inductive SignupResult where
  | rejected (message : String)
  | created
deriving DecidableEq, Repr

/-- `signup` (app.py lines 216-246): validates the password length, then
uniqueness of username/email, and only then inserts the user row. -/
def signup (users : List UserRow) (nextId : Nat)
    (username email password : String) : List UserRow × SignupResult :=
  if password.length < 8 then
    (users, .rejected "Password must be at least 8 characters long!")
  else if users.any (fun u => u.username == username || u.email == email) then
    (users, .rejected "Username or email already exists!")
  else
    (users ++ [⟨nextId, username, email, generate_password_hash password⟩],
     .created)

/-- C4: a signup with a password under 8 characters leaves the users table
unchanged and is rejected; likewise when the username or email is already
taken. -/
theorem signup_rejects_short_and_duplicate (users : List UserRow)
    (nextId : Nat) (username email password : String) :
    (password.length < 8 →
      signup users nextId username email password
        = (users, .rejected "Password must be at least 8 characters long!"))
    ∧ ((∃ u ∈ users, u.username = username ∨ u.email = email) →
        (signup users nextId username email password).1 = users
        ∧ ∃ m, (signup users nextId username email password).2 = .rejected m) := by
  constructor
  · intro h
    simp [signup, h]
  · intro h
    have hdup : users.any (fun u => u.username == username || u.email == email)
        = true := by
      rcases h with ⟨u, hu, hcase⟩
      refine List.any_eq_true.mpr ⟨u, hu, ?_⟩
      rcases hcase with h1 | h1 <;> simp [h1]
    by_cases hlen : password.length < 8
    · exact ⟨by simp [signup, hlen],
        "Password must be at least 8 characters long!", by simp [signup, hlen]⟩
    · exact ⟨by simp [signup, hlen, hdup],
        "Username or email already exists!", by simp [signup, hlen, hdup]⟩

/-- Witness for C4: a short-password signup and a duplicate-username signup
against a one-user table both leave the table as it was. -/
theorem signup_rejects_short_and_duplicate_witness :
    (("short" : String).length < 8
      ∧ signup [⟨1, "alice", "alice@x.com", "h"⟩] 2 "bob" "bob@x.com" "short"
          = ([⟨1, "alice", "alice@x.com", "h"⟩],
             .rejected "Password must be at least 8 characters long!"))
    ∧ (signup [⟨1, "alice", "alice@x.com", "h"⟩] 2 "alice" "new@x.com"
        "longpassword").1 = [⟨1, "alice", "alice@x.com", "h"⟩] :=
  ⟨⟨by decide,
    (signup_rejects_short_and_duplicate _ 2 "bob" "bob@x.com" "short").1
      (by decide)⟩,
   ((signup_rejects_short_and_duplicate [⟨1, "alice", "alice@x.com", "h"⟩] 2
      "alice" "new@x.com" "longpassword").2
      ⟨⟨1, "alice", "alice@x.com", "h"⟩, by simp, Or.inl rfl⟩).1⟩

/-! ### Edit and delete (app.py lines 351-392) -/

/-- The form fields of an expense edit POST. -/
structure ExpenseForm where
  amount : ℚ
  category : String
  date : String
  note : String
deriving DecidableEq, Repr

/-- `edit_expense` POST branch (app.py lines 357-369):
`UPDATE expenses SET ... WHERE id = ? AND user_id = ?`. -/
def edit_expense (db : List Expense) (uid eid : Nat) (f : ExpenseForm) :
    List Expense :=
  db.map (fun e =>
    if e.id == eid && e.user_id == uid then
      { e with amount := f.amount, category := f.category,
               date := f.date, note := f.note }
    else e)

/-- `delete_expense` (app.py lines 382-392):
`DELETE FROM expenses WHERE id = ? AND user_id = ?`. -/
def delete_expense (db : List Expense) (uid eid : Nat) : List Expense :=
  db.filter (fun e => !(e.id == eid && e.user_id == uid))

/-- C5: edit and delete leave the sub-table of rows owned by any other user
exactly as it was (same rows, same order), whatever expense id is targeted. -/
theorem edit_delete_other_users_frame (db : List Expense) (uid eid : Nat)
    (f : ExpenseForm) :
    (edit_expense db uid eid f).filter (fun e => !(e.user_id == uid))
      = db.filter (fun e => !(e.user_id == uid))
    ∧ (delete_expense db uid eid).filter (fun e => !(e.user_id == uid))
      = db.filter (fun e => !(e.user_id == uid)) := by
  constructor
  · induction db with
    | nil => rfl
    | cons a t ih =>
      by_cases hu : a.user_id = uid
      · by_cases hi : a.id = eid <;>
          simp [edit_expense, List.filter_cons, hu, hi] at * <;> exact ih
      · simp [edit_expense, List.filter_cons, hu] at *
        exact ih
  · induction db with
    | nil => rfl
    | cons a t ih =>
      by_cases hu : a.user_id = uid
      · by_cases hi : a.id = eid <;>
          simp [delete_expense, List.filter_cons, hu, hi] at * <;> exact ih
      · simp [delete_expense, List.filter_cons, hu] at *
        exact ih

/-! ### Budget access (app.py lines 80-90) -/

/-- `SELECT * FROM user_budget WHERE user_id = ?` followed by `fetchone()`:
the first matching row in storage order, if any. -/
def findBudget (db : List BudgetRow) (uid : Nat) : Option BudgetRow :=
  db.find? (fun b => b.user_id == uid)

/-- `get_budget` (app.py lines 80-90): look the row up; when absent, insert
the default row (income 5000, savings goal 1000) and re-run the lookup. -/
def get_budget (db : List BudgetRow) (nextId uid : Nat) :
    List BudgetRow × Option BudgetRow :=
  match findBudget db uid with
  | some b => (db, some b)
  | none =>
      (db ++ [⟨nextId, uid, 5000, 1000⟩],
       findBudget (db ++ [⟨nextId, uid, 5000, 1000⟩]) uid)

/-- C6: on first access with no budget row, `get_budget` appends exactly the
default row (income 5000, goal 1000) and returns it; when a row exists it
returns that row and leaves the table untouched; and it preserves the
at-most-one-budget-row-per-user invariant. -/
theorem get_budget_spec (db : List BudgetRow) (nextId uid : Nat) :
    (findBudget db uid = none →
      get_budget db nextId uid
        = (db ++ [⟨nextId, uid, 5000, 1000⟩], some ⟨nextId, uid, 5000, 1000⟩))
    ∧ (∀ b, findBudget db uid = some b → get_budget db nextId uid = (db, some b))
    ∧ ((∀ u, (db.filter (fun b => b.user_id == u)).length ≤ 1) →
        ∀ u, (((get_budget db nextId uid).1.filter
                (fun b => b.user_id == u)).length ≤ 1)) := by
  refine ⟨fun h => ?_, fun b hb => ?_, fun hinv u => ?_⟩
  · unfold get_budget
    rw [h]
    have hfind : findBudget (db ++ [⟨nextId, uid, 5000, 1000⟩]) uid
        = some ⟨nextId, uid, 5000, 1000⟩ := by
      unfold findBudget at h ⊢
      rw [List.find?_append, h]
      simp
    rw [hfind]
  · unfold get_budget
    rw [hb]
  · unfold get_budget
    cases hfb : findBudget db uid with
    | some b => exact hinv u
    | none =>
      by_cases hu : uid = u
      · have hnone : db.filter (fun b => b.user_id == u) = [] := by
          rw [List.filter_eq_nil_iff]
          intro a ha
          have := (List.find?_eq_none.mp hfb) a ha
          simpa [hu] using this
        simp [List.filter_append, hnone, hu]
      · have : ((uid == u) : Bool) = false := by
          simp
          exact hu
        simp [List.filter_append, this]
        exact hinv u

/-- Witness for C6: a user with no budget row gets exactly the default row
appended and returned; the next access returns that same row and changes
nothing; the resulting one-row table satisfies the invariant. -/
theorem get_budget_spec_witness :
    (findBudget [] 1 = none
      ∧ get_budget [] 7 1 = ([⟨7, 1, 5000, 1000⟩], some ⟨7, 1, 5000, 1000⟩))
    ∧ get_budget [⟨7, 1, 5000, 1000⟩] 8 1
        = ([⟨7, 1, 5000, 1000⟩], some ⟨7, 1, 5000, 1000⟩)
    ∧ ((([] : List BudgetRow).filter (fun b => b.user_id == 2)).length ≤ 1
      ∧ ((get_budget [] 7 1).1.filter (fun b => b.user_id == 1)).length ≤ 1) :=
  ⟨⟨by decide, (get_budget_spec [] 7 1).1 (by decide)⟩,
   (get_budget_spec [⟨7, 1, 5000, 1000⟩] 8 1).2.1 ⟨7, 1, 5000, 1000⟩ (by decide),
   by decide,
   (get_budget_spec [] 7 1).2.2 (fun u => by simp) 1⟩

/-! ### Top-N expenses (app.py lines 204-214) -/

/-- The comparison of `ORDER BY amount DESC`: `a` sorts no later than `b`
when `a`'s amount is at least `b`'s. -/
def amountDescLe (a b : Expense) : Bool := decide (b.amount ≤ a.amount)

/-- `get_top_expenses` (app.py lines 204-214):
`SELECT * FROM expenses WHERE user_id = ? ORDER BY amount DESC LIMIT ?`,
the sort stable over storage order. -/
def get_top_expenses (db : List Expense) (uid : Nat) (limit : Nat) :
    List Expense :=
  ((userExpenses db uid).mergeSort amountDescLe).take limit

/-- A concrete table realizing the spec's worked example: user 1 owns
(10.00, Food), (20.00, Food), (5.00, Travel), in this storage order. -/
def exDb7 : List Expense :=
  [⟨1, 1, 10, "Food", "2024-01-05", ""⟩,
   ⟨2, 1, 20, "Food", "2024-01-10", ""⟩,
   ⟨3, 1, 5, "Travel", "2024-02-01", ""⟩]

theorem pairwise_of_forall_rel {α : Type} {R : α → α → Prop}
    (h : ∀ x y, R x y) : ∀ l : List α, l.Pairwise R
  | [] => .nil
  | a :: t => .cons (fun b _ => h a b) (pairwise_of_forall_rel h t)

theorem amountDescLe_trans (a b c : Expense) :
    amountDescLe a b → amountDescLe b c → amountDescLe a c := by
  simp only [amountDescLe, decide_eq_true_eq]
  exact fun h1 h2 => le_trans h2 h1

theorem amountDescLe_total (a b : Expense) :
    amountDescLe a b || amountDescLe b a := by
  simp only [amountDescLe, Bool.or_eq_true, decide_eq_true_eq]
  exact le_total b.amount a.amount

/-- C7: the top-N listing is the first N entries of the stable
descending-by-amount sort of the user's expenses: it is sorted in descending
amount order, every retained entry has amount at least that of every dropped
entry, retained and dropped entries together are exactly the user's expenses,
equal amounts keep their storage order, and on the worked example the top-1
result is the 20.00 row. -/
theorem get_top_expenses_spec (db : List Expense) (uid limit : Nat) :
    (get_top_expenses db uid limit).Pairwise
        (fun a b => b.amount ≤ a.amount)
    ∧ (∀ x ∈ get_top_expenses db uid limit,
        ∀ y ∈ ((userExpenses db uid).mergeSort amountDescLe).drop limit,
          y.amount ≤ x.amount)
    ∧ (get_top_expenses db uid limit
        ++ ((userExpenses db uid).mergeSort amountDescLe).drop limit).Perm
        (userExpenses db uid)
    ∧ (∀ q : ℚ,
        ((userExpenses db uid).mergeSort amountDescLe).filter
            (fun e => e.amount == q)
          = (userExpenses db uid).filter (fun e => e.amount == q))
    ∧ get_top_expenses exDb7 1 1 = [⟨2, 1, 20, "Food", "2024-01-10", ""⟩] := by
  have hsorted : ((userExpenses db uid).mergeSort amountDescLe).Pairwise
      (fun a b => amountDescLe a b) :=
    List.sorted_mergeSort amountDescLe_trans amountDescLe_total _
  have hsorted' : ((userExpenses db uid).mergeSort amountDescLe).Pairwise
      (fun a b => b.amount ≤ a.amount) := by
    refine hsorted.imp ?_
    intro a b h
    simpa [amountDescLe] using h
  refine ⟨?_, ?_, ?_, ?_, ?_⟩
  · exact hsorted'.sublist (List.take_sublist _ _)
  · intro x hx y hy
    rcases List.mem_iff_getElem.mp hx with ⟨i, hi, rfl⟩
    rcases List.mem_iff_getElem.mp hy with ⟨j, hj, rfl⟩
    have hi2 : i < limit := by
      simp only [get_top_expenses, List.length_take] at hi
      omega
    have hi3 : i < ((userExpenses db uid).mergeSort amountDescLe).length := by
      simp only [get_top_expenses, List.length_take] at hi
      omega
    have hj3 : limit + j < ((userExpenses db uid).mergeSort amountDescLe).length := by
      simp only [List.length_drop] at hj
      omega
    show (((userExpenses db uid).mergeSort amountDescLe).drop limit)[j].amount
      ≤ (((userExpenses db uid).mergeSort amountDescLe).take limit)[i].amount
    simp only [List.getElem_take, List.getElem_drop]
    exact List.pairwise_iff_getElem.mp hsorted' i (limit + j) hi3 hj3 (by omega)
  · unfold get_top_expenses
    rw [List.take_append_drop]
    exact List.mergeSort_perm _ _
  · intro q
    have hpw : ((userExpenses db uid).filter (fun e => e.amount == q)).Pairwise
        (fun a b => amountDescLe a b = true) := by
      apply List.pairwise_filter.mpr
      exact pairwise_of_forall_rel
        (fun x y hx hy => by simp [amountDescLe, hx, hy]) _
    have hsub : ((userExpenses db uid).filter (fun e => e.amount == q)).Sublist
        ((userExpenses db uid).mergeSort amountDescLe) :=
      List.sublist_mergeSort amountDescLe_trans amountDescLe_total hpw
        (List.filter_sublist _)
    have hsub2 : ((userExpenses db uid).filter (fun e => e.amount == q)).Sublist
        (((userExpenses db uid).mergeSort amountDescLe).filter
          (fun e => e.amount == q)) := by
      have h2 := hsub.filter (fun e => e.amount == q)
      rw [List.filter_filter] at h2
      simpa only [Bool.and_self] using h2
    have hperm : (((userExpenses db uid).mergeSort amountDescLe).filter
        (fun e => e.amount == q)).Perm
        ((userExpenses db uid).filter (fun e => e.amount == q)) :=
      (List.mergeSort_perm _ _).filter _
    exact (hsub2.eq_of_length hperm.length_eq.symm).symm
  · unfold get_top_expenses userExpenses
    norm_num [exDb7, List.mergeSort, List.merge, amountDescLe]

/-! ### CSV export (app.py lines 414-441) -/

/-- The comparison of `ORDER BY date DESC` in the export query. -/
def dateDescLe (a b : Expense) : Bool := textLe b.date a.date

/-- The rows selected by `/export` (app.py lines 421-425): the user's
expenses whose `strftime('%Y-%m', date)` equals the current month, ordered
by date descending. -/
def export_rows (db : List Expense) (uid : Nat) (current_month : String) :
    List Expense :=
  (db.filter (fun e => e.user_id == uid && monthOf e.date == current_month)).mergeSort
    dateDescLe

/-- The header `pandas.DataFrame.to_csv(index=False)` writes for a
non-empty frame built from expense row dicts. -/
def csvHeader : String := "id,user_id,amount,category,date,note"

/-- One CSV data line per expense row. -/
def csvLine (e : Expense) : String :=
  String.intercalate ","
    [toString e.id, toString e.user_id, toString e.amount,
     e.category, e.date, e.note]

/-- `pd.DataFrame(...).to_csv(index=False)` (app.py lines 428-431): an empty
row list gives an empty frame with no columns, whose CSV text is a bare
newline (no header, no data rows); otherwise the header plus the data
lines. -/
def to_csv (rows : List Expense) : String :=
  if rows.isEmpty then "\n"
  else csvHeader ++ "\n" ++ String.intercalate "\n" (rows.map csvLine) ++ "\n"

/-- The attachment name `f'expenses_\x7bcurrent_month\x7d.csv'` (line 434). -/
def export_filename (current_month : String) : String :=
  "expenses_" ++ current_month ++ ".csv"

/-- `export_expenses` (app.py lines 414-441): the attachment name and the
CSV text of the current month's rows. -/
def export_expenses (db : List Expense) (uid : Nat) (current_month : String) :
    String × String :=
  (export_filename current_month, to_csv (export_rows db uid current_month))

/-- C8: the export selects exactly the user's expenses of the current
calendar month (as a permutation, i.e. the sorted listing), the attachment
is named `expenses_<YYYY-MM>.csv`, and a month with no expenses yields the
empty-frame CSV text (no header, no data) rather than an error. -/
theorem export_expenses_spec (db : List Expense) (uid : Nat)
    (current_month : String) :
    (export_rows db uid current_month).Perm
        (db.filter (fun e => e.user_id == uid && monthOf e.date == current_month))
    ∧ (∀ e, e ∈ export_rows db uid current_month
        ↔ e ∈ db ∧ e.user_id = uid ∧ monthOf e.date = current_month)
    ∧ (export_expenses db uid current_month).1
        = "expenses_" ++ current_month ++ ".csv"
    ∧ (db.filter (fun e => e.user_id == uid && monthOf e.date == current_month)
          = [] →
        (export_expenses db uid current_month).2 = "\n") := by
  refine ⟨List.mergeSort_perm _ _, fun e => ?_, rfl, fun h => ?_⟩
  · unfold export_rows
    rw [List.mem_mergeSort, List.mem_filter]
    simp
  · unfold export_expenses export_rows
    rw [h, List.mergeSort_nil]
    rfl

/-- Witness for C8: user 2 has no expense in 2024-03, and the export for
that month is the empty CSV text with the right attachment name. -/
theorem export_expenses_spec_witness :
    exDb.filter (fun e => e.user_id == 2 && monthOf e.date == "2024-03") = []
    ∧ export_expenses exDb 2 "2024-03" = ("expenses_2024-03.csv", "\n") :=
  ⟨by decide,
   by
     have h := export_expenses_spec exDb 2 "2024-03"
     have h1 := h.2.2.1
     have h2 := h.2.2.2 (by decide)
     exact Prod.ext h1 h2⟩

/-! ### Budget update (app.py lines 394-412) -/

/-- `set_budget` POST branch (app.py lines 398-409): a bare
`UPDATE user_budget SET monthly_income = ?, savings_goal = ? WHERE user_id = ?`
followed unconditionally by the success flash and a redirect; no INSERT. -/
def set_budget (db : List BudgetRow) (uid : Nat) (income goal : ℚ) :
    List BudgetRow × String :=
  (db.map (fun b =>
    if b.user_id == uid then
      { b with monthly_income := income, savings_goal := goal }
    else b),
   "Budget settings updated!")

/-- C9: when the user has no budget row, the UPDATE of `set_budget` matches
nothing: the table is returned exactly as it was, yet the request still
reports success — the submitted values are silently lost. -/
theorem set_budget_no_row_lost (db : List BudgetRow) (uid : Nat)
    (income goal : ℚ) :
    (∀ b ∈ db, b.user_id ≠ uid) →
      set_budget db uid income goal = (db, "Budget settings updated!") := by
  intro h
  unfold set_budget
  congr 1
  induction db with
  | nil => rfl
  | cons a t ih =>
    have ha : a.user_id ≠ uid := h a (List.mem_cons_self a t)
    simp only [List.map_cons]
    rw [if_neg (by simp [ha]), ih (fun b hb => h b (List.mem_cons_of_mem a hb))]

/-- Witness for C9: a table holding only user 2's budget row is untouched by
user 1's `set_budget` POST, which still reports success. -/
theorem set_budget_no_row_lost_witness :
    (∀ b ∈ ([⟨1, 2, 5000, 1000⟩] : List BudgetRow), b.user_id ≠ 1)
    ∧ set_budget [⟨1, 2, 5000, 1000⟩] 1 7777 888
        = ([⟨1, 2, 5000, 1000⟩], "Budget settings updated!") :=
  ⟨by decide, set_budget_no_row_lost _ 1 7777 888 (by decide)⟩

/-! ### Dashboard totals (app.py lines 278-298) -/

/-- `p` occurs at the head of `t` (character-wise). -/
def chStarts : List Char → List Char → Bool
  | [], _ => true
  | _ :: _, [] => false
  | a :: p, b :: t => a == b && chStarts p t

/-- `p` occurs somewhere in `t`. -/
def chHas : List Char → List Char → Bool
  | p, [] => chStarts p []
  | p, b :: t => chStarts p (b :: t) || chHas p t

/-- SQLite `column LIKE '%search%'`: the search text occurs as a substring,
ASCII-case-insensitively (LIKE's default behaviour). -/
def likeContains (text pat : String) : Bool :=
  chHas pat.toLower.data text.toLower.data

/-- The row predicate of the filtered listing of `get_expenses`
(app.py lines 95-112); an absent optional parameter is the empty string. -/
def matchesFilters (uid : Nat)
    (category start_date end_date search : String) (e : Expense) : Bool :=
  e.user_id == uid
  && (if category ≠ "" ∧ category ≠ "All" then e.category == category else true)
  && (if start_date ≠ "" then textLe start_date e.date else true)
  && (if end_date ≠ "" then textLe e.date end_date else true)
  && (if search ≠ "" then
        likeContains e.note search || likeContains e.category search
      else true)

/-- The ORDER BY comparison for an allow-listed sort column, ascending. -/
def colLe (sort_by : String) (a b : Expense) : Bool :=
  if sort_by = "amount" then decide (a.amount ≤ b.amount)
  else if sort_by = "category" then textLe a.category b.category
  else textLe a.date b.date

/-- The ORDER BY step of `get_expenses`: no allow-listed sort column means
no ORDER BY clause, i.e. storage order. -/
def sortRows (sort_by sort_order : String) (l : List Expense) : List Expense :=
  if sort_by ∈ allowedSortColumns then
    if sort_order = "ASC" then l.mergeSort (fun a b => colLe sort_by a b)
    else l.mergeSort (fun a b => colLe sort_by b a)
  else l

/-- The rows `get_expenses` returns (app.py lines 92-120). -/
def get_expenses (db : List Expense) (uid : Nat)
    (category start_date end_date search sort_by sort_order : String) :
    List Expense :=
  sortRows sort_by sort_order
    (db.filter (matchesFilters uid category start_date end_date search))

/-- `total_spent` of the dashboard (app.py line 297): the sum over the
filtered listing only. -/
def dashboard_total_spent (db : List Expense) (uid : Nat)
    (category start_date end_date search sort_by sort_order : String) : ℚ :=
  amountSum (get_expenses db uid category start_date end_date search
    sort_by sort_order)

/-- `remaining_budget` of the dashboard (app.py line 298). -/
def dashboard_remaining_budget (db : List Expense) (uid : Nat)
    (category start_date end_date search sort_by sort_order : String)
    (monthly_income : ℚ) : ℚ :=
  monthly_income - dashboard_total_spent db uid category start_date end_date
    search sort_by sort_order

theorem sortRows_perm (sort_by sort_order : String) (l : List Expense) :
    (sortRows sort_by sort_order l).Perm l := by
  unfold sortRows
  by_cases h : sort_by ∈ allowedSortColumns
  · by_cases h2 : sort_order = "ASC" <;> simp [h, h2, List.mergeSort_perm]
  · simp [h]

theorem amountSum_perm {l l' : List Expense} (h : l.Perm l') :
    amountSum l = amountSum l' := by
  unfold amountSum
  exact (h.map (fun e => e.amount)).sum_eq

/-- C10: `total_spent` is the sum over the filtered listing only and
`remaining_budget` is the monthly income minus that filtered sum; with no
filters the subtracted sum is the user's all-time spend; and filtering can
change the reported remaining budget, as the concrete table shows. -/
theorem dashboard_totals_follow_filters (db : List Expense) (uid : Nat)
    (category start_date end_date search sort_by sort_order : String)
    (income : ℚ) :
    dashboard_total_spent db uid category start_date end_date search
        sort_by sort_order
      = amountSum (db.filter
          (matchesFilters uid category start_date end_date search))
    ∧ dashboard_remaining_budget db uid category start_date end_date search
        sort_by sort_order income
      = income - dashboard_total_spent db uid category start_date end_date
          search sort_by sort_order
    ∧ dashboard_total_spent db uid "All" "" "" "" sort_by sort_order
      = amountSum (userExpenses db uid)
    ∧ dashboard_remaining_budget exDb 1 "Travel" "" "" "" "date" "DESC" 5000
      ≠ dashboard_remaining_budget exDb 1 "All" "" "" "" "date" "DESC" 5000 := by
  refine ⟨?_, rfl, ?_, ?_⟩
  · exact amountSum_perm (sortRows_perm _ _ _)
  · have hall : matchesFilters uid "All" "" "" ""
        = fun e => e.user_id == uid := by
      funext e
      simp [matchesFilters]
    unfold dashboard_total_spent get_expenses
    rw [amountSum_perm (sortRows_perm sort_by sort_order _), hall]
    rfl
  · have hf1 : exDb.filter (matchesFilters 1 "Travel" "" "" "")
        = [⟨3, 1, 5, "Travel", "2024-02-01", ""⟩] := by decide
    have hf2 : exDb.filter (matchesFilters 1 "All" "" "" "")
        = [⟨1, 1, 10, "Food", "2024-01-05", ""⟩,
           ⟨2, 1, 20, "Food", "2024-01-10", ""⟩,
           ⟨3, 1, 5, "Travel", "2024-02-01", ""⟩] := by decide
    have h1 : dashboard_remaining_budget exDb 1 "Travel" "" "" "" "date"
        "DESC" 5000 = 5000 - 5 := by
      unfold dashboard_remaining_budget dashboard_total_spent get_expenses
      rw [amountSum_perm (sortRows_perm _ _ _), hf1]
      norm_num [amountSum]
    have h2 : dashboard_remaining_budget exDb 1 "All" "" "" "" "date"
        "DESC" 5000 = 5000 - 35 := by
      unfold dashboard_remaining_budget dashboard_total_spent get_expenses
      rw [amountSum_perm (sortRows_perm _ _ _), hf2]
      norm_num [amountSum]
    rw [h1, h2]
    norm_num

end ExpenseTracker
